import Mathlib

/-!
Shallow embedding of `CrystalToolkitScene.tsx` (mp-react-components), the
React component wrapping the crystal-toolkit `Scene` engine.  The effects of
the component are modelled as pure functions from their inputs (props, camera
states, module-global counters) to lists of emitted actions or explicit state
transitions, mirroring the source line by line.
-/

namespace CTK

/-- three.js `Vector3`: a triple of JS numbers, modelled as rationals. -/
structure Vector3 where
  x : ℚ
  y : ℚ
  z : ℚ
deriving DecidableEq

/-- three.js `Quaternion`: four JS numbers. -/
structure Quaternion where
  x : ℚ
  y : ℚ
  z : ℚ
  w : ℚ
deriving DecidableEq

/-- `CameraState` from the bundled declarations: every field is optional
(`quaternion?`, `position?`, `zoom?`, `setByComponentId?`, `following?`). -/
structure CameraState where
  quaternion : Option Quaternion
  position : Option Vector3
  zoom : Option ℚ
  setByComponentId : Option String
  following : Option Bool
deriving DecidableEq

/-- Actions emitted by the camera-state effect (CrystalToolkitScene.tsx,
lines 335-349). -/
inductive CameraEffectAction where
  /-- `props.setProps({ ...props, currentCameraState: cameraState })` -/
  | setCurrentCameraState (s : CameraState)
  /-- `scene.current!.updateCamera(position, quaternion, zoom)` -/
  | updateCamera (p : Vector3) (q : Quaternion) (z : ℚ)
deriving DecidableEq

/-- The effect body run for each camera state received from the shared
context or the local reducer (CrystalToolkitScene.tsx, lines 336-348):
it always republishes the state via `setProps`, and calls
`scene.current!.updateCamera` only under the guard
`cameraState.setByComponentId !== componentId.current &&
 cameraState.position && cameraState.quaternion && cameraState.zoom`.
JS truthiness: a missing (`undefined`) `position`/`quaternion` is falsy, and
`zoom` is falsy when missing or equal to `0`. -/
def cameraStateEffect (componentId : String) (cameraState : CameraState) :
    List CameraEffectAction :=
  CameraEffectAction.setCurrentCameraState cameraState ::
    (if cameraState.setByComponentId ≠ some componentId then
      match cameraState.position, cameraState.quaternion, cameraState.zoom with
      | some p, some q, some z =>
          if z ≠ 0 then [CameraEffectAction.updateCamera p q z] else []
      | _, _, _ => []
    else [])

/-- The camera-state effect either only republishes the state, or (when all
fields are present and truthy and the state came from another instance) also
emits exactly one `updateCamera` with the state's own field values. -/
theorem cameraStateEffect_cases (cid : String) (s : CameraState) :
    cameraStateEffect cid s = [CameraEffectAction.setCurrentCameraState s] ∨
    (∃ p q z, s.position = some p ∧ s.quaternion = some q ∧ s.zoom = some z ∧ z ≠ 0 ∧
      s.setByComponentId ≠ some cid ∧
      cameraStateEffect cid s =
        [CameraEffectAction.setCurrentCameraState s, CameraEffectAction.updateCamera p q z]) := by
  by_cases hc : s.setByComponentId = some cid
  · left; simp [cameraStateEffect, hc]
  · rcases hp : s.position with _ | p <;>
      rcases hq : s.quaternion with _ | q <;>
        rcases hz : s.zoom with _ | z <;>
          simp [cameraStateEffect, hp, hq, hz, hc]
    exact eq_or_ne z 0

/-- C1: a Scene Engine instance calls its Camera Controller's `updateCamera`
for a received camera state only if the state's `setByComponentId` differs
from the instance's own `componentId`; in particular a state the instance
itself published (stamped with its own id) is never re-applied — the effect
only republishes it as `currentCameraState` (no-op on the camera). -/
theorem cameraStateEffect_loop_prevention (componentId : String) (s : CameraState) :
    (∀ p q z, CameraEffectAction.updateCamera p q z ∈ cameraStateEffect componentId s →
      s.setByComponentId ≠ some componentId) ∧
    (s.setByComponentId = some componentId →
      cameraStateEffect componentId s = [CameraEffectAction.setCurrentCameraState s]) := by
  rcases cameraStateEffect_cases componentId s with
    h | ⟨p', q', z', hp, hq, hz, hz0, hne, heff⟩
  · constructor
    · intro p q z hmem
      rw [h] at hmem
      simp at hmem
    · intro _
      exact h
  · constructor
    · intro p q z _
      exact hne
    · intro hEq
      exact absurd hEq hne

/-- Witness for C1: an instance with id "1" receiving back a fully populated
state stamped `setByComponentId = "1"` emits no `updateCamera` action. -/
theorem cameraStateEffect_loop_prevention_witness :
    cameraStateEffect "1"
      { quaternion := some ⟨0, 0, 0, 1⟩, position := some ⟨1, 2, 3⟩, zoom := some 1,
        setByComponentId := some "1", following := some true } =
      [CameraEffectAction.setCurrentCameraState
        { quaternion := some ⟨0, 0, 0, 1⟩, position := some ⟨1, 2, 3⟩, zoom := some 1,
          setByComponentId := some "1", following := some true }] :=
  (cameraStateEffect_loop_prevention "1" _).2 rfl

/-- C9: a received camera state is applied via `updateCamera` only when its
`position`, `quaternion` and `zoom` are all present and truthy (`zoom ≠ 0`);
when any is missing, or `zoom = 0`, the camera is left unchanged — the effect
emits only the unconditional `setCurrentCameraState` republication. -/
theorem cameraStateEffect_truthy_fields (componentId : String) (s : CameraState) :
    ((s.position = none ∨ s.quaternion = none ∨ s.zoom = none ∨ s.zoom = some 0) →
      cameraStateEffect componentId s = [CameraEffectAction.setCurrentCameraState s]) ∧
    (∀ p q z, CameraEffectAction.updateCamera p q z ∈ cameraStateEffect componentId s →
      s.position = some p ∧ s.quaternion = some q ∧ s.zoom = some z ∧ z ≠ 0) := by
  rcases cameraStateEffect_cases componentId s with
    h | ⟨p', q', z', hp, hq, hz, hz0, hne, heff⟩
  · constructor
    · intro _
      exact h
    · intro p q z hmem
      rw [h] at hmem
      simp at hmem
  · constructor
    · intro hmiss
      rcases hmiss with hm | hm | hm | hm
      · rw [hm] at hp; exact absurd hp (by simp)
      · rw [hm] at hq; exact absurd hq (by simp)
      · rw [hm] at hz; exact absurd hz (by simp)
      · rw [hm] at hz
        simp at hz
        exact absurd hz.symm hz0
    · intro p q z hmem
      rw [heff] at hmem
      simp at hmem
      obtain ⟨h1, h2, h3⟩ := hmem
      subst h1; subst h2; subst h3
      exact ⟨hp, hq, hz, hz0⟩

/-- Witness for C9: a state from another instance ("1" received by "2") whose
`zoom` is `0` triggers no `updateCamera`, only the republication. -/
theorem cameraStateEffect_truthy_fields_witness :
    cameraStateEffect "2"
      { quaternion := some ⟨0, 0, 0, 1⟩, position := some ⟨1, 2, 3⟩, zoom := some 0,
        setByComponentId := some "1", following := none } =
      [CameraEffectAction.setCurrentCameraState
        { quaternion := some ⟨0, 0, 0, 1⟩, position := some ⟨1, 2, 3⟩, zoom := some 0,
          setByComponentId := some "1", following := none }] :=
  (cameraStateEffect_truthy_fields "2" _).1 (Or.inr (Or.inr (Or.inr rfl)))

/-- `JSON3DObject` enumeration of declarative node types, from the bundled
declarations. -/
inductive JSON3DObject where
  | ellipsoids
  | cylinders
  | spheres
  | arrows
  | cubes
  | lines
  | surfaces
  | convex
  | label
  | bezier
deriving DecidableEq

/-- `ThreePosition = [number, number, number]`. -/
def ThreePosition : Type := ℚ × ℚ × ℚ

/-- `SceneJsonObject` from the bundled declarations: the declarative scene
document.  All fields are optional; `contents` recursively holds child nodes.
The field whose declared type is `any[]` (`animate`) is modelled with rational
entries, as its elements are never inspected by the embedded code. -/
inductive SceneJsonObject where
  | mk
    (name : Option String)
    (contents : Option (List SceneJsonObject))
    (type : Option JSON3DObject)
    (clickable : Option Bool)
    (color : Option String)
    (radius : Option ℚ)
    (visible : Option Bool)
    (origin : Option ThreePosition)
    (positions : Option (List ThreePosition))
    (headLength : Option ℚ)
    (headWidth : Option ℚ)
    (tooltip : Option String)
    (scale : Option (List ThreePosition))
    (positionPairs : Option (List (List ThreePosition)))
    (keyframes : Option (List ℚ))
    (animate : Option (List ℚ))
    (id : Option String)

/-- The `name` field of a declarative document node. -/
def SceneJsonObject.name : SceneJsonObject → Option String
  | .mk n _ _ _ _ _ _ _ _ _ _ _ _ _ _ _ _ => n

/-- The `contents` field of a declarative document node. -/
def SceneJsonObject.contents : SceneJsonObject → Option (List SceneJsonObject)
  | .mk _ c _ _ _ _ _ _ _ _ _ _ _ _ _ _ _ => c

/-- JS truthiness of an optional string field: `undefined` and the empty
string are falsy, every other string is truthy. -/
def strTruthy : Option String → Bool
  | none => false
  | some s => !s.isEmpty

/-- Actions emitted by the `props.data` effect (CrystalToolkitScene.tsx,
lines 295-307). -/
inductive DataEffectAction where
  /-- `console.warn('no data passed ( or missing name /content ), scene will
  not be updated', props.data)` -/
  | warn (data : Option SceneJsonObject)
  /-- `scene.current!.addToScene(props.data, true)` -/
  | addToScene (data : SceneJsonObject) (bypassRendering : Bool)
  /-- `scene.current!.toggleVisibility(props.toggleVisibility)` -/
  | toggleVisibility (map : List (String × Bool))

/-- The effect body run on each change of `props.data`
(CrystalToolkitScene.tsx, lines 295-307): when the document is absent, or its
`name` is JS-falsy, or its `contents` is absent, only a warning is emitted
and the scene is not updated; otherwise `addToScene(props.data, true)` runs
followed by `toggleVisibility(props.toggleVisibility)`.  An array-valued
`contents` is always truthy in JS (even when empty), so only a missing
`contents` skips the rebuild. -/
def dataEffect (data : Option SceneJsonObject) (toggleVisibility : List (String × Bool)) :
    List DataEffectAction :=
  match data with
  | none => [DataEffectAction.warn none]
  | some d =>
    if strTruthy d.name && d.contents.isSome then
      [DataEffectAction.addToScene d true, DataEffectAction.toggleVisibility toggleVisibility]
    else
      [DataEffectAction.warn (some d)]

/-- A document all of whose fields are absent except `name` (present but the
empty string, hence JS-falsy) and `contents` (present and empty). -/
def emptyNameDoc : SceneJsonObject :=
  .mk (some "") (some []) none none none none none none none none none none
    none none none none none

/-- C3 counterexample: a document that is present and has both top-level
fields present (`name = ""`, `contents = []`) — so the claim's "otherwise"
branch demands `addToScene` — yet the effect only emits the warning and never
calls `addToScene`, because JS treats the empty-string `name` as falsy. -/
theorem dataEffect_empty_name_counterexample :
    (emptyNameDoc.name).isSome = true ∧ (emptyNameDoc.contents).isSome = true ∧
    dataEffect (some emptyNameDoc) [] = [DataEffectAction.warn (some emptyNameDoc)] ∧
    ∀ d b, DataEffectAction.addToScene d b ∉ dataEffect (some emptyNameDoc) [] := by
  refine ⟨rfl, rfl, rfl, ?_⟩
  intro d b hmem
  have heff : dataEffect (some emptyNameDoc) [] = [DataEffectAction.warn (some emptyNameDoc)] :=
    rfl
  rw [heff] at hmem
  simp at hmem

/-- C3 amended: if the document is absent, or its `name` field is absent or
JS-falsy (the empty string), or its `contents` field is absent, the
scene-graph rebuild is skipped (no `addToScene`) and a diagnostic warning is
emitted; otherwise `addToScene` is called with the new document and the
visibility toggle map is re-applied. -/
theorem dataEffect_skips_on_falsy_fields (data : Option SceneJsonObject)
    (tv : List (String × Bool)) :
    ((data = none → dataEffect data tv = [DataEffectAction.warn none]) ∧
     (∀ d, data = some d → (strTruthy d.name = false ∨ d.contents = none) →
        dataEffect data tv = [DataEffectAction.warn (some d)])) ∧
    (∀ d, data = some d → strTruthy d.name = true → d.contents.isSome = true →
      dataEffect data tv =
        [DataEffectAction.addToScene d true, DataEffectAction.toggleVisibility tv]) := by
  refine ⟨⟨?_, ?_⟩, ?_⟩
  · intro h
    rw [h]
    rfl
  · intro d hd hfalsy
    rw [hd]
    rcases hfalsy with h | h
    · simp [dataEffect, h]
    · simp [dataEffect, h]
  · intro d hd hname hcontents
    rw [hd]
    simp [dataEffect, hname, hcontents]

/-- Witness for the amended C3: a well-formed document (non-empty `name`,
present `contents`) is rebuilt and the toggle map re-applied. -/
theorem dataEffect_skips_on_falsy_fields_witness :
    dataEffect
      (some (.mk (some "root") (some []) none none none none none none none none
        none none none none none none none)) [("a", false)] =
      [DataEffectAction.addToScene
        (.mk (some "root") (some []) none none none none none none none none
          none none none none none none none) true,
       DataEffectAction.toggleVisibility [("a", false)]] :=
  (dataEffect_skips_on_falsy_fields _ _).2 _ rfl rfl rfl

/-- The two export handlers `requestImage` can dispatch to. -/
inductive ExportHandler where
  | setPngData
  | setColladaData
deriving DecidableEq

/-- `requestImage(filetype, sceneComponent)` (CrystalToolkitScene.tsx, lines
238-250): a switch on the requested filetype dispatching to `setPngData` for
`'png'` and `setColladaData` for `'dae'`; every other filetype hits the
default branch, which throws `new Error('Unknown filetype.')` before any
renderer state is touched. -/
def requestImage (filetype : String) : Except String ExportHandler :=
  if filetype = "png" then Except.ok ExportHandler.setPngData
  else if filetype = "dae" then Except.ok ExportHandler.setColladaData
  else Except.error "Unknown filetype."

/-- C4: an export request whose filetype is neither `'png'` nor `'dae'` fails
with the descriptive error `'Unknown filetype.'` and dispatches to no handler
(the live viewport is untouched); the recognized filetypes dispatch to their
corresponding handler and do not throw. -/
theorem requestImage_dispatch (filetype : String) :
    (filetype ≠ "png" → filetype ≠ "dae" →
      requestImage filetype = Except.error "Unknown filetype.") ∧
    requestImage "png" = Except.ok ExportHandler.setPngData ∧
    requestImage "dae" = Except.ok ExportHandler.setColladaData := by
  refine ⟨?_, rfl, rfl⟩
  intro h1 h2
  simp [requestImage, h1, h2]

/-- Witness for C4: the filetype `'gltf'` (declared in the `ExportType`
enumeration but not handled) throws. -/
theorem requestImage_dispatch_witness :
    requestImage "gltf" = Except.error "Unknown filetype." :=
  (requestImage_dispatch "gltf").1 (by decide) (by decide)

/-- Renderer/owner-visible effects performed along the raster export path. -/
inductive RenderAction where
  /-- `sceneComponent.renderer.setPixelRatio(r)` -/
  | setPixelRatio (r : ℚ)
  /-- `sceneComponent.renderScene()` -/
  | renderScene
  /-- `sceneComponent.renderer.domElement.toDataURL('image/png')` — the
  read-back of the rendered surface -/
  | toDataURL
  /-- `props.setProps({ imageData, imageDataTimestamp })` -/
  | setProps
deriving DecidableEq

/-- The per-instance state relevant to teardown and the raster export path:
whether the download-event subscription is active, whether `Scene.onDestroy`
has been called, the renderer's pixel ratio, and the log of performed
`RenderAction`s. -/
structure InstanceState where
  subscribed : Bool
  destroyed : Bool
  pixelRatio : ℚ
  log : List RenderAction
deriving DecidableEq

/-- The body of the `setTimeout` callback scheduled by `setPngData`'s WebGL
branch (CrystalToolkitScene.tsx, lines 205-208):
`sceneComponent.renderer.setPixelRatio(oldRatio); sceneComponent.renderScene();`.
It consults no liveness flag — it acts identically on a destroyed instance. -/
def runDeferredRestore (oldRatio : ℚ) (s : InstanceState) : InstanceState :=
  { s with
    pixelRatio := oldRatio
    log := s.log ++ [RenderAction.setPixelRatio oldRatio, RenderAction.renderScene] }

/-- The completion callback passed to `toDataUrl` in `setPngData`'s SVG
branch (lines 211-216): it calls `props.setProps({ imageData,
imageDataTimestamp })`, again with no liveness check. -/
def runSvgEncodeCallback (s : InstanceState) : InstanceState :=
  { s with log := s.log ++ [RenderAction.setProps] }

/-- `setPngData(sceneComponent)` (lines 196-218): on the WebGL renderer it
reads the old pixel ratio, sets the ratio to 8, forces a render, reads the
surface back as a png data URL, delivers it via `setProps`, and schedules the
deferred restore callback via `setTimeout`; on the SVG renderer it renders
and hands the conversion off to `toDataUrl`, whose completion callback
delivers the data.  Returns the synchronously updated state together with
the scheduled (not yet run) completion callback. -/
def setPngData (isWebGL : Bool) (s : InstanceState) :
    InstanceState × (InstanceState → InstanceState) :=
  if isWebGL then
    ({ s with
        pixelRatio := 8
        log := s.log ++ [RenderAction.setPixelRatio 8, RenderAction.renderScene,
          RenderAction.toDataURL, RenderAction.setProps] },
      runDeferredRestore s.pixelRatio)
  else
    ({ s with log := s.log ++ [RenderAction.renderScene] }, runSvgEncodeCallback)

/-- The cleanup function returned by the mount effect (CrystalToolkitScene.tsx,
lines 281-285): `subscription.unsubscribe(); _s.onDestroy();`. -/
def unmountCleanup (s : InstanceState) : InstanceState :=
  { s with subscribed := false, destroyed := true }

/-- A complete WebGL raster export on a live instance: the synchronous part
of `setPngData` followed, on the next event-loop turn, by the deferred
pixel-ratio restore callback. -/
def pngExportRun (s : InstanceState) : InstanceState :=
  (setPngData true s).2 (setPngData true s).1

/-- C5: a WebGL raster export temporarily overrides the renderer's pixel
ratio to 8 for a forced re-render and surface read-back; after the deferred
restore callback runs, the pixel ratio is back to its original value and the
trace ends with restoring the original ratio followed by a re-render, so the
live viewport is not left altered. -/
theorem setPngData_restores_pixel_ratio (s : InstanceState) :
    ((pngExportRun s).log.drop s.log.length).take 3 =
      [RenderAction.setPixelRatio 8, RenderAction.renderScene, RenderAction.toDataURL] ∧
    (pngExportRun s).pixelRatio = s.pixelRatio ∧
    ∃ pre, (pngExportRun s).log =
      pre ++ [RenderAction.setPixelRatio s.pixelRatio, RenderAction.renderScene] := by
  have hlog : (pngExportRun s).log =
      s.log ++ [RenderAction.setPixelRatio 8, RenderAction.renderScene, RenderAction.toDataURL,
        RenderAction.setProps, RenderAction.setPixelRatio s.pixelRatio,
        RenderAction.renderScene] := by
    simp [pngExportRun, setPngData, runDeferredRestore]
  refine ⟨?_, ?_, ?_⟩
  · rw [hlog, List.drop_left]
    rfl
  · simp [pngExportRun, setPngData, runDeferredRestore]
  · refine ⟨s.log ++ [RenderAction.setPixelRatio 8, RenderAction.renderScene,
      RenderAction.toDataURL, RenderAction.setProps], ?_⟩
    rw [hlog]
    simp

/-- C2 counterexample: an instance starts a WebGL png export (scheduling the
deferred pixel-ratio restore), is then torn down (unsubscribed, destroyed),
and the still-pending callback fires afterwards: it extends the action log of
the torn-down instance — the callback is neither guarded by a liveness check
nor canceled, refuting the claim that no callback of a torn-down instance
fires. -/
theorem pending_callback_after_teardown_counterexample :
    (unmountCleanup
        (setPngData true
          { subscribed := true, destroyed := false, pixelRatio := 1, log := [] }).1).destroyed
      = true ∧
    ((setPngData true
        { subscribed := true, destroyed := false, pixelRatio := 1, log := [] }).2
      (unmountCleanup
        (setPngData true
          { subscribed := true, destroyed := false, pixelRatio := 1, log := [] }).1)).log ≠
    (unmountCleanup
      (setPngData true
        { subscribed := true, destroyed := false, pixelRatio := 1, log := [] }).1).log := by
  constructor
  · rfl
  · decide

/-- C2 amended: tearing the instance down does unsubscribe the download-event
subscription and call `Scene.onDestroy`, but the pending export completion
callbacks are not guarded by any liveness check and are not canceled: both
the deferred pixel-ratio restore and the SVG encoding callback perform their
full effects on the already torn-down instance. -/
theorem unmountCleanup_leaves_callbacks_unguarded (s : InstanceState) (r : ℚ) :
    (unmountCleanup s).subscribed = false ∧
    (unmountCleanup s).destroyed = true ∧
    (runDeferredRestore r (unmountCleanup s)).log =
      s.log ++ [RenderAction.setPixelRatio r, RenderAction.renderScene] ∧
    (runSvgEncodeCallback (unmountCleanup s)).log = s.log ++ [RenderAction.setProps] := by
  refine ⟨rfl, rfl, ?_, ?_⟩ <;> simp [runDeferredRestore, runSvgEncodeCallback, unmountCleanup]

/-- The standard base64 alphabet used by the browser's `btoa`. -/
def base64Alphabet : List Char :=
  "ABCDEFGHIJKLMNOPQRSTUVWXYZabcdefghijklmnopqrstuvwxyz0123456789+/".data

/-- The base64 character for a 6-bit value. -/
def base64Char (n : Nat) : Char := base64Alphabet.getD n 'A'

/-- Base64 encoding of a byte sequence, with `'='` padding. -/
def base64Encode : List Nat → List Char
  | [] => []
  | [b1] => [base64Char (b1 / 4), base64Char (b1 % 4 * 16), '=', '=']
  | [b1, b2] =>
      [base64Char (b1 / 4), base64Char (b1 % 4 * 16 + b2 / 16), base64Char (b2 % 16 * 4), '=']
  | b1 :: b2 :: b3 :: rest =>
      base64Char (b1 / 4) :: base64Char (b1 % 4 * 16 + b2 / 16) ::
        base64Char (b2 % 16 * 4 + b3 / 64) :: base64Char (b3 % 64) :: base64Encode rest

/-- The browser's `btoa(s)`: base64 of the string's char codes (each code a
byte, reduced mod 2^8). -/
def btoa (s : String) : String :=
  (base64Encode (s.data.map (fun c => c.toNat % 256))).asString

/-- Sanity: `btoa('Hello')` is the standard encoding. -/
theorem btoa_hello : btoa "Hello" = "SGVsbG8=" := by decide

/-- The payload delivered through `props.setProps` by the export handlers. -/
structure ImagePayload where
  imageData : String
  imageDataTimestamp : Nat
deriving DecidableEq

/-- `setColladaData(sceneComponent)` (CrystalToolkitScene.tsx, lines 224-236),
modelled at its call site where both the component's declarative document
prop (`props.data`) and the live scene graph (`sceneComponent.scene`) are in
scope.  The external `ColladaExporter().parse` serializer is a parameter
`parse` over an arbitrary scene-graph type `G`; it is applied to the live
graph `scene` only, the result's `data` field is prefixed with
`'data:text/plain;base64,'` after `btoa`, and delivered together with
`Date.now()` via `setProps`. -/
def setColladaData (G : Type) (parse : G → String) (now : Nat)
    (data : Option SceneJsonObject) (scene : G) : ImagePayload :=
  { imageData := "data:text/plain;base64," ++ btoa (parse scene)
    imageDataTimestamp := now }

/-- C6: the collada export serializes the live scene graph — its output is
the base64 of `parse scene` with the `'data:text/plain;base64,'` prefix plus
the timestamp, and it is wholly independent of the declarative source
document prop. -/
theorem setColladaData_serializes_live_scene (G : Type) (parse : G → String) (now : Nat)
    (data : Option SceneJsonObject) (scene : G) :
    (setColladaData G parse now data scene).imageData =
      "data:text/plain;base64," ++ btoa (parse scene) ∧
    (setColladaData G parse now data scene).imageDataTimestamp = now ∧
    ∀ otherData, setColladaData G parse now otherData scene =
      setColladaData G parse now data scene := by
  exact ⟨rfl, rfl, fun _ => rfl⟩

/-- Payload of a `CameraReducerAction.NEW_POSITION` dispatch, as built at the
two dispatch sites in CrystalToolkitScene.tsx (lines 268-276 and 368-376). -/
structure CameraActionPayload where
  componentId : String
  position : Vector3
  quaternion : Quaternion
  zoom : Option ℚ
deriving DecidableEq

/-- Actions emitted by the `customCameraState` effect (lines 356-380). -/
inductive CustomCameraAction where
  /-- `scene.current!.updateCamera(position, quaternion, zoom)` -/
  | updateCamera (p : Vector3) (q : Quaternion) (z : Option ℚ)
  /-- `cameraDispatch({ type: NEW_POSITION, payload })` -/
  | dispatchNewPosition (payload : CameraActionPayload)
deriving DecidableEq

/-- three.js `new Quaternion(x, y, z, w)` constructed from the optional plain
object `q` via `q?.x` etc.: when `q` is absent the constructor defaults apply
(`x = y = z = 0`, `w = 1`). -/
def quaternionFrom : Option Quaternion → Quaternion
  | none => ⟨0, 0, 0, 1⟩
  | some q => q

/-- three.js `new Vector3(x, y, z)` from the optional plain object `p`;
constructor defaults are `(0, 0, 0)`. -/
def vector3From : Option Vector3 → Vector3
  | none => ⟨0, 0, 0⟩
  | some p => p

/-- Whether an emitted action is an `updateCamera` call. -/
def CustomCameraAction.isUpdateCamera : CustomCameraAction → Bool
  | .updateCamera _ _ _ => true
  | _ => false

/-- The effect body run on each change of `props.customCameraState`
(CrystalToolkitScene.tsx, lines 356-380): when the prop is set, the plain
position/quaternion objects are converted to three.js objects (with
constructor defaults for absent ones), `scene.current!.updateCamera` is
called once with them, and — when a camera dispatch function is wired (shared
context or local reducer) — a `NEW_POSITION` action carrying the instance's
own `componentId` is dispatched. -/
def customCameraStateEffect (componentId : String) (hasCameraDispatch : Bool)
    (customCameraState : Option CameraState) : List CustomCameraAction :=
  match customCameraState with
  | none => []
  | some c =>
    let quaternion := quaternionFrom c.quaternion
    let position := vector3From c.position
    CustomCameraAction.updateCamera position quaternion c.zoom ::
      (if hasCameraDispatch then
        [CustomCameraAction.dispatchNewPosition
          { componentId := componentId, position := position, quaternion := quaternion,
            zoom := c.zoom }]
      else [])

/-- C7: setting `customCameraState` applies the converted state exactly once
via `updateCamera` and republishes it to the camera bus stamped with the
instance's own `componentId`; when the prop is not set, nothing happens. -/
theorem customCameraStateEffect_applies_once (componentId : String) (c : CameraState) :
    customCameraStateEffect componentId true (some c) =
      [CustomCameraAction.updateCamera (vector3From c.position) (quaternionFrom c.quaternion)
        c.zoom,
       CustomCameraAction.dispatchNewPosition
        { componentId := componentId, position := vector3From c.position,
          quaternion := quaternionFrom c.quaternion, zoom := c.zoom }] ∧
    (∀ hasDispatch,
      (customCameraStateEffect componentId hasDispatch (some c)).countP
        CustomCameraAction.isUpdateCamera = 1) ∧
    customCameraStateEffect componentId true none = [] := by
  refine ⟨rfl, ?_, rfl⟩
  intro hasDispatch
  cases hasDispatch <;> rfl

/-- `AnimationStyle` string enumeration from the scene constants. -/
inductive AnimationStyle where
  | play
  | slider
  | none
deriving DecidableEq

/-- The string value of each `AnimationStyle` member. -/
def AnimationStyle.value : AnimationStyle → String
  | .play => "play"
  | .slider => "slider"
  | .none => "none"

/-- The scrubber UI (`SimpleSlider`) is mounted exactly when
`props.animation === AnimationStyle.SLIDER` (CrystalToolkitScene.tsx,
line 403). -/
def sliderMounted (animation : Option String) : Bool :=
  animation == some AnimationStyle.slider.value

/-- The engine call made by the slider's `onUpdate` handler. -/
inductive SliderAction where
  | updateTime (t : ℚ)
deriving DecidableEq

/-- The slider's `onUpdate` handler (lines 405-407):
`scene.current!.updateTime(a / 100)`. -/
def sliderOnUpdate (a : ℚ) : SliderAction := SliderAction.updateTime (a / 100)

/-- C8: the scrubber is mounted exactly in `'slider'` animation mode, and an
externally supplied slider value `a` is forwarded to the engine as
`updateTime(a / 100)`, a normalized time lying in `[0, 1]` whenever
`a ∈ [0, 100]`. -/
theorem slider_mounts_and_normalizes (animation : Option String) (a : ℚ) :
    (sliderMounted animation = true ↔ animation = some "slider") ∧
    sliderOnUpdate a = SliderAction.updateTime (a / 100) ∧
    (0 ≤ a → a ≤ 100 → 0 ≤ a / 100 ∧ a / 100 ≤ 1) := by
  refine ⟨?_, rfl, ?_⟩
  · simp [sliderMounted, AnimationStyle.value]
  · intro h0 h100
    constructor
    · exact div_nonneg h0 (by norm_num)
    · rw [div_le_one (by norm_num)]
      linarith

/-- Witness for C8: in `'slider'` mode the scrubber is mounted, and the value
50 is forwarded as the normalized time `1/2 ∈ [0, 1]`. -/
theorem slider_mounts_and_normalizes_witness :
    sliderMounted (some "slider") = true ∧
    sliderOnUpdate 50 = SliderAction.updateTime (50 / 100) ∧
    (0 ≤ (50 : ℚ) / 100 ∧ (50 : ℚ) / 100 ≤ 1) :=
  ⟨((slider_mounts_and_normalizes (some "slider") 50).1).mpr rfl,
   (slider_mounts_and_normalizes (some "slider") 50).2.1,
   (slider_mounts_and_normalizes (some "slider") 50).2.2 (by norm_num) (by norm_num)⟩

/-- Little-endian decimal digits of `n`, computed with explicit fuel (any
fuel `≥ n` gives the digits; structural recursion keeps it kernel-reducible). -/
def toDigitsRev : Nat → Nat → List Nat
  | 0, _ => []
  | _ + 1, 0 => []
  | fuel + 1, n + 1 => (n + 1) % 10 :: toDigitsRev fuel ((n + 1) / 10)

/-- The character of a decimal digit. -/
def digitChar (d : Nat) : Char := Char.ofNat (48 + d)

/-- JS `Number.prototype.toString()` on a nonnegative integer: its decimal
digit string. -/
def jsToString (n : Nat) : String :=
  if n = 0 then "0" else ((toDigitsRev n n).reverse.map digitChar).asString

/-- The number denoted by a little-endian decimal digit list. -/
def undigits : List Nat → Nat
  | [] => 0
  | d :: ds => d + 10 * undigits ds

/-- The digit denoted by a decimal digit character. -/
def charToDigit (c : Char) : Nat := c.toNat - 48

/-- The number denoted by a decimal digit string. -/
def fromDecimalString (s : String) : Nat := undigits ((s.data.map charToDigit).reverse)

theorem undigits_toDigitsRev : ∀ fuel n, n ≤ fuel → undigits (toDigitsRev fuel n) = n := by
  intro fuel
  induction fuel with
  | zero =>
    intro n hn
    have : n = 0 := Nat.le_zero.mp hn
    subst this
    rfl
  | succ f ih =>
    intro n hn
    match n with
    | 0 => rfl
    | m + 1 =>
      have hlt : (m + 1) / 10 < m + 1 := Nat.div_lt_self (Nat.succ_pos m) (by norm_num)
      have hdiv : (m + 1) / 10 ≤ f := by omega
      show undigits ((m + 1) % 10 :: toDigitsRev f ((m + 1) / 10)) = m + 1
      rw [undigits, ih _ hdiv]
      exact Nat.mod_add_div (m + 1) 10

theorem toDigitsRev_lt_ten : ∀ fuel n, ∀ d ∈ toDigitsRev fuel n, d < 10 := by
  intro fuel
  induction fuel with
  | zero =>
    intro n d hd
    simp [toDigitsRev] at hd
  | succ f ih =>
    intro n d hd
    match n with
    | 0 => simp [toDigitsRev] at hd
    | m + 1 =>
      rw [toDigitsRev] at hd
      rcases List.mem_cons.mp hd with h | h
      · rw [h]
        exact Nat.mod_lt _ (by norm_num)
      · exact ih _ _ h

theorem charToDigit_digitChar (d : Nat) (hd : d < 10) : charToDigit (digitChar d) = d := by
  interval_cases d <;> decide

/-- `fromDecimalString` is a left inverse of `jsToString`. -/
theorem fromDecimalString_jsToString (n : Nat) : fromDecimalString (jsToString n) = n := by
  by_cases h0 : n = 0
  · subst h0
    decide
  · rw [jsToString, if_neg h0, fromDecimalString]
    have hdata : (((toDigitsRev n n).reverse.map digitChar).asString).data =
        (toDigitsRev n n).reverse.map digitChar := rfl
    rw [hdata, List.map_map]
    have hmap : (toDigitsRev n n).reverse.map (charToDigit ∘ digitChar) =
        (toDigitsRev n n).reverse := by
      refine List.map_congr_left ?_ |>.trans (List.map_id _)
      intro d hd
      exact charToDigit_digitChar d (toDigitsRev_lt_ten n n d (List.mem_reverse.mp hd))
    rw [hmap, List.reverse_reverse]
    exact undigits_toDigitsRev n n le_rfl

/-- The decimal string conversion is injective. -/
theorem jsToString_injective : Function.Injective jsToString :=
  Function.LeftInverse.injective fromDecimalString_jsToString

/-- One mount of `CrystalToolkitScene`:
`componentId = useRef((++ID_GENERATOR).toString())` (CrystalToolkitScene.tsx,
lines 48 and 186) — the module-global counter is pre-incremented once and its
decimal string becomes the new instance's identity. -/
def mountComponentId (gen : Nat) : Nat × String :=
  (gen + 1, jsToString (gen + 1))

/-- Counter value and list of issued component ids after `k` successive
mounts starting from counter value `g0`. -/
def runMounts (g0 : Nat) : Nat → Nat × List String
  | 0 => (g0, [])
  | k + 1 =>
    let (g, ids) := runMounts g0 k
    let (g', cid) := mountComponentId g
    (g', ids ++ [cid])

theorem runMounts_eq (g0 : Nat) : ∀ k,
    runMounts g0 k = (g0 + k, (List.range k).map (fun i => jsToString (g0 + i + 1))) := by
  intro k
  induction k with
  | zero => rfl
  | succ m ih =>
    rw [runMounts, ih]
    simp [mountComponentId, List.range_succ]
    omega

/-- C10: after any number of mounts, the module-global counter has advanced
by one per mount, the id issued by the `i`-th mount is the decimal string of
the pre-incremented counter, and all issued component ids are pairwise
distinct — no two live instances share the identity used for the
`setByComponentId` comparison. -/
theorem componentIds_distinct (g0 k : Nat) :
    (runMounts g0 k).1 = g0 + k ∧
    (runMounts g0 k).2 = (List.range k).map (fun i => jsToString (g0 + i + 1)) ∧
    ((runMounts g0 k).2).Nodup := by
  rw [runMounts_eq]
  refine ⟨rfl, rfl, ?_⟩
  refine List.Nodup.map ?_ (List.nodup_range k)
  intro a b hab
  have := jsToString_injective hab
  omega

end CTK
